import Mathlib

/-!
Verification of the utxx logging engine specification against the sources.

The development shallowly embeds the relevant parts of the repository:

* `time_val` (src/unnamed/part_000, time_val.hpp): seconds/microseconds
  arithmetic with its `normalize` fix-up.
* `timestamp` (src/src/timestamp.cpp): timestamp style parsing and fixed-width
  formatting.
* the asynchronous logger engine (spec sections 3, 4, 7, 8): the engine's own
  sources are not part of src/ (only its test,
  src/test/test_logger_async_file.cpp, is), so the engine is modelled from the
  specification; every such definition carries a doc comment starting with
  "Modelled from the spec:".

Machine integers (`long`, `time_t`, `suseconds_t`, `int`) are embedded as
`Int`; C signed division/remainder (which truncate toward zero) are embedded
as `Int.tdiv`/`Int.tmod`.
-/

namespace utxx

/-! ## time_val (src/unnamed/part_000) -/

/-- `struct timeval` wrapped by `utxx::time_val`: `tv_sec`/`tv_usec` are C
`long`s, embedded as `Int`. -/
structure time_val where
  tv_sec  : Int
  tv_usec : Int
deriving DecidableEq, Repr

/-- First loop of `time_val::normalize` (part_000 lines 73-75):
`while (usec >= 1000000) { ++sec; usec -= 1000000; }` (the `if` + `do/while`
in the source tests the same condition). -/
def usec_down (s u : Int) : Int × Int :=
  if h : 1000000 ≤ u then usec_down (s + 1) (u - 1000000) else (s, u)
termination_by u.toNat
decreasing_by omega

/-- Second loop of `time_val::normalize` (part_000 lines 76-78):
`while (usec <= -1000000) { --sec; usec += 1000000; }`. -/
def usec_up (s u : Int) : Int × Int :=
  if h : u ≤ -1000000 then usec_up (s - 1) (u + 1000000) else (s, u)
termination_by (-u).toNat
decreasing_by omega

/-- Sign fix-up of `time_val::normalize` (part_000 lines 80-83):
`if (sec >= 1 && usec < 0) { --sec; usec += 1000000; }
else if (sec < 0 && usec > 0) { ++sec; usec -= 1000000; }`. -/
def fixup (s u : Int) : time_val :=
  if 1 ≤ s ∧ u < 0 then ⟨s - 1, u + 1000000⟩
  else if s < 0 ∧ 0 < u then ⟨s + 1, u - 1000000⟩
  else ⟨s, u⟩

/-- `time_val::normalize` (part_000 lines 72-84): reduce `|usec|` below one
million with the two loops, then repair strictly opposite signs of `sec` and
`usec`. -/
def normalize (t : time_val) : time_val :=
  if 1000000 ≤ t.tv_usec then
    fixup (usec_down t.tv_sec t.tv_usec).1 (usec_down t.tv_sec t.tv_usec).2
  else if t.tv_usec ≤ -1000000 then
    fixup (usec_up t.tv_sec t.tv_usec).1 (usec_up t.tv_sec t.tv_usec).2
  else fixup t.tv_sec t.tv_usec

/-- The two-argument constructor `time_val(long _s, long _us)` (part_000
line 99): stores the fields and calls `normalize()`. -/
def time_val.mk2 (s us : Int) : time_val := normalize ⟨s, us⟩

/-- `time_val::operator-(const time_val&)` (part_000 lines 273-275). -/
def time_val.sub (a b : time_val) : time_val :=
  time_val.mk2 (a.tv_sec - b.tv_sec) (a.tv_usec - b.tv_usec)

/-- `time_val::operator+(const time_val&)` (part_000 lines 276-278). -/
def time_val.add (a b : time_val) : time_val :=
  time_val.mk2 (a.tv_sec + b.tv_sec) (a.tv_usec + b.tv_usec)

/-- `time_val::sec()` accessor (part_000 line 130). -/
def time_val.sec (t : time_val) : Int := t.tv_sec

/-- `time_val::usec()` accessor (part_000 line 131). -/
def time_val.usec (t : time_val) : Int := t.tv_usec

/-- `time_val::empty()` (part_000 line 150):
`return sec() == 0 && usec() == 0;`. -/
def time_val.empty (t : time_val) : Bool :=
  t.sec == 0 && t.usec == 0

/-- `time_val::operator bool()` (part_000 line 339):
`return sec() == 0 && usec() == 0;`. -/
def time_val.operator_bool (t : time_val) : Bool :=
  t.sec == 0 && t.usec == 0

/-- `time_val::operator<=` (part_000 lines 335-337). -/
def time_val.le (a b : time_val) : Bool :=
  decide (a.sec < b.sec) || (a.sec == b.sec && decide (a.usec ≤ b.usec))

/-- The normalization invariant claimed of constructed/derived values: the
microsecond field lies strictly between -10^6 and 10^6 and `sec`/`usec` never
have strictly opposite signs. -/
def normalized (t : time_val) : Prop :=
  -1000000 < t.tv_usec ∧ t.tv_usec < 1000000 ∧
  ¬(1 ≤ t.tv_sec ∧ t.tv_usec < 0) ∧ ¬(t.tv_sec < 0 ∧ 0 < t.tv_usec)

/-! ## timestamp (src/src/timestamp.cpp) -/

/-- `enum stamp_type`, in the order implied by `s_values`, `format_size` and
`format` (src/src/timestamp.cpp lines 57-62, 190-203). -/
inductive stamp_type where
  | NO_TIMESTAMP
  | TIME
  | TIME_WITH_MSEC
  | TIME_WITH_USEC
  | DATE_TIME
  | DATE_TIME_WITH_MSEC
  | DATE_TIME_WITH_USEC
deriving DecidableEq, Repr

/-- The style token array (src/src/timestamp.cpp lines 58-61). -/
def s_values : List String :=
  ["none", "time", "time-msec", "time-usec",
   "date-time", "date-time-msec", "date-time-usec"]

/-- Modelled from the spec: `find_index` (utxx/string.hpp, not under src/)
returns the index of the given token in the array, or the default `-1` when
the token is absent; the recognized tokens are the styles of section 4.4. -/
def find_index : List String → String → Int → Int
  | [], _, _ => -1
  | v :: vs, s, i => if v = s then i else find_index vs s (i + 1)

/-- The C cast `(stamp_type)i` for the indices produced by `find_index` over
`s_values`. -/
def stamp_of_index (i : Int) : stamp_type :=
  if i = 0 then .NO_TIMESTAMP
  else if i = 1 then .TIME
  else if i = 2 then .TIME_WITH_MSEC
  else if i = 3 then .TIME_WITH_USEC
  else if i = 4 then .DATE_TIME
  else if i = 5 then .DATE_TIME_WITH_MSEC
  else .DATE_TIME_WITH_USEC

/-- `parse_stamp_type` (src/src/timestamp.cpp lines 64-70): look the token up
in `s_values` and throw `badarg_error` when the lookup yields `-1`. -/
def parse_stamp_type (a_line : String) : Except String stamp_type :=
  let t := find_index s_values a_line 0
  if t = -1 then
    .error "parse_stamp_tpe: invalid timestamp type"
  else
    .ok (stamp_of_index t)

/-- `'0' + n` on a C `char`. -/
def digit_char (n : Int) : Char := Char.ofNat ('0'.toNat + n.toNat)

/-- Modelled from the spec: `itoa_right<T, N>` with pad character `'0'`
(utxx/convert.hpp, not under src/): writes the value right-aligned in exactly
`N` characters, zero-padded on the left. -/
def itoa_right (width : Nat) (v : Int) : List Char :=
  match width with
  | 0 => []
  | w + 1 => itoa_right w (v.tdiv 10) ++ [digit_char (v.tmod 10)]

/-- The `write_time(buf, sec, size)` overload used by `timestamp::format`
(declared in utxx/timestamp.hpp): writes `HH:MM:SS`; the hour/minute/second
digit arithmetic is that of `timestamp::write_time` (src/src/timestamp.cpp
lines 81-95) with delimiter `':'`. -/
def write_time_hms (tsec : Int) : List Char :=
  let n0 := tsec - (tsec.tdiv 86400) * 86400
  let hour := n0.tdiv 3600
  let n1 := n0 - hour * 3600
  let mins := n1.tdiv 60
  let secs := n1 - mins * 60
  [digit_char (hour.tdiv 10), digit_char (hour - (hour.tdiv 10) * 10), ':',
   digit_char (mins.tdiv 10), digit_char (mins - (mins.tdiv 10) * 10), ':',
   digit_char (secs.tdiv 10), digit_char (secs - (secs.tdiv 10) * 10)]

/-- Modelled from the spec: `from_gregorian_time` (utxx/time.hpp, not under
src/) converts seconds since the Unix epoch to the Gregorian civil date
`(year, month, day)` (standard civil-from-days conversion). -/
def from_gregorian_time (secs : Int) : Int × Int × Int :=
  let z := secs.fdiv 86400 + 719468
  let era := (if 0 ≤ z then z else z - 146096).tdiv 146097
  let doe := z - era * 146097
  let yoe := (doe - doe.tdiv 1460 + doe.tdiv 36524 - doe.tdiv 146096).tdiv 365
  let y := yoe + era * 400
  let doy := doe - (365 * yoe + yoe.tdiv 4 - yoe.tdiv 100)
  let mp := (5 * doy + 2).tdiv 153
  let d := doy - (153 * mp + 2).tdiv 5 + 1
  let m := mp + (if mp < 10 then 3 else -9)
  (if m ≤ 2 then y + 1 else y, m, d)

/-- `timestamp::internal_write_date` (src/src/timestamp.cpp lines 120-142)
with `a_sep = '\0'` (no separator, as used through `write_date` by `format`):
writes `YYYYMMDD-`, nine characters.  The terminating NUL at `eos_pos` is not
part of the formatted text (it is overwritten by the time that follows). -/
def internal_write_date (a_utc_seconds : Int) (a_utc : Bool)
    (s_utc_offset : Int) : List Char :=
  let secs := if a_utc then a_utc_seconds else a_utc_seconds + s_utc_offset
  let ymd := from_gregorian_time secs
  let y := ymd.1
  let m := ymd.2.1
  let d := ymd.2.2
  let n1 := y.tdiv 1000
  let y1 := y - n1 * 1000
  let n2 := y1.tdiv 100
  let y2 := y1 - n2 * 100
  let n3 := y2.tdiv 10
  let y3 := y2 - n3 * 10
  [digit_char n1, digit_char n2, digit_char n3, digit_char y3,
   digit_char (m.tdiv 10), digit_char (m - (m.tdiv 10) * 10),
   digit_char (d.tdiv 10), digit_char (d - (d.tdiv 10) * 10), '-']

/-- `timestamp::format_size` (src/src/timestamp.cpp lines 190-203). -/
def format_size : stamp_type → Nat
  | .NO_TIMESTAMP => 0
  | .TIME => 8
  | .TIME_WITH_USEC => 15
  | .TIME_WITH_MSEC => 12
  | .DATE_TIME => 17
  | .DATE_TIME_WITH_USEC => 24
  | .DATE_TIME_WITH_MSEC => 21

/-- `timestamp::format` (src/src/timestamp.cpp lines 205-259).  The buffer is
modelled as the list of characters written (the NUL stored for
`NO_TIMESTAMP` is not a timestamp character); the thread-local date cache is
modelled transparently: `write_date` is modelled by `internal_write_date`,
which is exactly what the cache stores for the current day.  `s_utc_offset`
and `s_last_time.tv_sec` are the thread-local values read by the code. -/
def format (a_tp : stamp_type) (tv : time_val) (a_utc : Bool)
    (s_utc_offset s_last_time_sec : Int) : List Char × Int :=
  let l_rel := tv.tv_sec < 86400
  let sec := if l_rel then tv.tv_sec
             else tv.tv_sec + (if a_utc then 0 else s_utc_offset)
  let l_usec := tv.tv_usec
  let date_sec := if l_rel then s_last_time_sec else tv.tv_sec
  match a_tp with
  | .NO_TIMESTAMP => ([], 0)
  | .TIME => (write_time_hms sec, 8)
  | .TIME_WITH_USEC =>
      (write_time_hms sec ++ '.' :: itoa_right 6 l_usec, 15)
  | .TIME_WITH_MSEC =>
      (write_time_hms sec ++ '.' :: itoa_right 3 (l_usec.tdiv 1000), 12)
  | .DATE_TIME =>
      (internal_write_date date_sec a_utc s_utc_offset ++ write_time_hms sec, 17)
  | .DATE_TIME_WITH_USEC =>
      (internal_write_date date_sec a_utc s_utc_offset ++ write_time_hms sec ++
        '.' :: itoa_right 6 l_usec, 24)
  | .DATE_TIME_WITH_MSEC =>
      (internal_write_date date_sec a_utc s_utc_offset ++ write_time_hms sec ++
        '.' :: itoa_right 3 (l_usec.tdiv 1000), 21)

/-! ## The logging engine

The engine's own sources (logger.hpp / logger.cpp / logger_impl_file.hpp)
are not under src/; only its test, src/test/test_logger_async_file.cpp, is.
Per the spec, the engine is modelled here from spec sections 3, 4.1-4.4, 7. -/

/-- Modelled from the spec: the severity enumeration of section 3
(logger.hpp, not under src/). -/
inductive log_level where
  | LEVEL_DEBUG
  | LEVEL_INFO
  | LEVEL_WARNING
  | LEVEL_ERROR
  | LEVEL_FATAL
  | LEVEL_ALERT
deriving DecidableEq, Repr, Fintype

/-- Modelled from the spec: the fixed display mapping of section 3:
debug to D, info to I, warning to W, error to E, fatal to F, alert to F. -/
def level_char : log_level → Char
  | .LEVEL_DEBUG => 'D'
  | .LEVEL_INFO => 'I'
  | .LEVEL_WARNING => 'W'
  | .LEVEL_ERROR => 'E'
  | .LEVEL_FATAL => 'F'
  | .LEVEL_ALERT => 'F'

/-- The message tail an alert-level call carries in the test. -/
def alert_sfx : List Char := ('a' :: 'l' :: 'e' :: 'r' :: 't' :: ' ' :: []) ++
  ('e' :: 'r' :: 'r' :: 'o' :: 'r' :: [])

/-- The message tail the spec says is emitted instead. -/
def fatal_sfx : List Char := ('f' :: 'a' :: 't' :: 'a' :: 'l' :: ' ' :: []) ++
  ('e' :: 'r' :: 'r' :: 'o' :: 'r' :: [])

/-- Modelled from the spec: an alert-level record "renders with the fatal
marker and message suffix \"fatal error\"" (section 3): a message ending in
"alert error" is emitted ending in "fatal error"; other messages pass
through unchanged. -/
def display_msg (lv : log_level) (msg : List Char) : List Char :=
  if lv = .LEVEL_ALERT ∧ alert_sfx <:+ msg then
    msg.take (msg.length - alert_sfx.length) ++ fatal_sfx
  else msg

/-- Modelled from the spec: a Log Record of section 3: level, optional
category (empty means none), owning-thread identifier, per-thread sequence
number, timestamp, payload. -/
structure log_record where
  level    : log_level
  category : List Char
  tid      : Nat
  seq      : Nat
  tstamp   : time_val
  msg      : List Char
deriving DecidableEq, Repr

/-- Modelled from the spec: the filter part of a Sink Configuration
(section 3): enabled-level set and optional enabled-category set (empty
accepts every category). -/
structure sink_config where
  levels     : List log_level
  categories : List (List Char)
deriving DecidableEq, Repr

/-- Modelled from the spec: "A record reaches a sink iff its level is in
that sink's enabled-level set and (the sink's category set is empty or
contains the record's category)" (section 3). -/
def accepts (s : sink_config) (r : log_record) : Bool :=
  decide (r.level ∈ s.levels) &&
    (s.categories.isEmpty || decide (r.category ∈ s.categories))

/-- Modelled from the spec: the line a sink emits for a record, with
`show-ident=false` and `show-location=false`: the four pipe-delimited fields
`<timestamp>|<LevelChar>|<Category>|<Message>` (section 4.3; the delimiter
between the timestamp field and the level character is fixed by the
concrete expected lines of section 8 and of the test,
src/test/test_logger_async_file.cpp lines 61-80 and 101: an empty timestamp
yields a leading `|`).  The timestamp field is the text produced by
`timestamp::format` for the configured style. -/
def render_line (tp : stamp_type) (a_utc : Bool) (off last : Int)
    (r : log_record) : List Char :=
  (format tp r.tstamp a_utc off last).1 ++
    '|' :: level_char r.level :: '|' ::
      (r.category ++ '|' :: display_msg r.level r.msg)

/-- Modelled from the spec: the Consumer Thread pops records in the queue's
arrival order and writes to each sink the records its filter accepts
(section 4.2). -/
def sink_output (s : sink_config) (queue : List log_record) : List log_record :=
  queue.filter (fun r => accepts s r)

/-- The shutdown message of section 4.3. -/
def finish_msg : List Char := "Logger thread finished".data

/-- Modelled from the spec: the terminal record emitted at shutdown: level
"I", empty category, message "Logger thread finished" (section 4.3). -/
def finish_record (shut : time_val) : log_record :=
  ⟨.LEVEL_INFO, [], 0, 0, shut, finish_msg⟩

/-- Modelled from the spec: the sink file contents after `finalize()`
returns: every queued record that passed the filter, in arrival order,
followed by the terminal informational record when that feature is enabled
(sections 4.2, 4.3, and the section 3 invariant on `finalize`). -/
def finalize_output (tp : stamp_type) (a_utc : Bool) (off last : Int)
    (s : sink_config) (queue : List log_record) (finish_enabled : Bool)
    (shut : time_val) : List (List Char) :=
  (sink_output s queue).map (render_line tp a_utc off last) ++
    (if finish_enabled then [render_line tp a_utc off last (finish_record shut)]
     else [])

/-- The records of one producer thread, in order. -/
def by_thread (t : Nat) (l : List log_record) : List log_record :=
  l.filter (fun r => r.tid == t)

/-- Non-decreasing timestamps along a list of records, under
`time_val::operator<=`. -/
def ts_mono : List log_record → Bool
  | [] => true
  | [_] => true
  | a :: b :: rest => time_val.le a.tstamp b.tstamp && ts_mono (b :: rest)

/-! ### init-time configuration validation (spec sections 4.4, 7) -/

/-- Modelled from the spec: the recognized configuration option keys of
section 4.4. -/
def recognized_options : List String :=
  ["timestamp", "show-ident", "show-location", "silent-finish", "levels",
   "stdout-levels", "filename", "append", "use-mutex", "no-header"]

/-- Modelled from the spec: one level token of the pipe-delimited level list
(sections 3 and 4.4). -/
def parse_level_token (s : String) : Option log_level :=
  if s = "debug" then some .LEVEL_DEBUG
  else if s = "info" then some .LEVEL_INFO
  else if s = "warning" then some .LEVEL_WARNING
  else if s = "error" then some .LEVEL_ERROR
  else if s = "fatal" then some .LEVEL_FATAL
  else if s = "alert" then some .LEVEL_ALERT
  else none

/-- All tokens of a split level list; `none` as soon as one token is
unparsable. -/
def parse_level_tokens : List String → Option (List log_level)
  | [] => some []
  | t :: ts =>
    match parse_level_token t, parse_level_tokens ts with
    | some l, some ls => some (l :: ls)
    | _, _ => none

/-- Modelled from the spec: parse a pipe-delimited level token list
(section 4.4). -/
def parse_levels (s : String) : Option (List log_level) :=
  parse_level_tokens (s.splitOn "|")

/-- Modelled from the spec: the raw key/value option set of one sink, as
handed to `init` by the configuration-tree reader (section 6). -/
structure sink_cfg where
  opts : List (String × String)
deriving DecidableEq, Repr

/-- First option value bound to a key. -/
def lookup_opt (c : sink_cfg) (k : String) : Option String :=
  c.opts.lookup k

/-- Every option key of the sink is recognized. -/
def opts_recognized (c : sink_cfg) : Bool :=
  c.opts.all (fun kv => recognized_options.contains kv.1)

/-- The sink's level list, from `levels` or `stdout-levels` (section 4.4). -/
def levels_value (c : sink_cfg) : Option String :=
  match lookup_opt c "levels" with
  | some v => some v
  | none => lookup_opt c "stdout-levels"

/-- The sink's level list parses (vacuously true when absent). -/
def levels_ok (c : sink_cfg) : Bool :=
  match levels_value c with
  | some v => (parse_levels v).isSome
  | none => true

/-- The sink's target opens (vacuously true when no `filename` is given);
`openable` models the file system's answer. -/
def target_ok (openable : String → Bool) (c : sink_cfg) : Bool :=
  match lookup_opt c "filename" with
  | some f => openable f
  | none => true

/-- Modelled from the spec: validation of one sink at `init`: an
unrecognized option, an unparsable level token, or a target that fails to
open is a configuration error (sections 4.4 and 7). -/
def init_sink (openable : String → Bool) (c : sink_cfg) :
    Except String sink_cfg :=
  if !opts_recognized c then .error "unrecognized option"
  else if !levels_ok c then .error "unparsable level token"
  else if !target_ok openable c then .error "failed to open sink target"
  else .ok c

/-- Modelled from the spec: initialize the sinks in order; the first
configuration error aborts the whole initialization (section 7). -/
def init_sinks (openable : String → Bool) :
    List sink_cfg → Except String (List sink_cfg)
  | [] => .ok []
  | c :: cs =>
    match init_sink openable c with
    | .error e => .error e
    | .ok s =>
      match init_sinks openable cs with
      | .error e => .error e
      | .ok ss => .ok (s :: ss)

/-- Modelled from the spec: the Logger State: installed sinks and whether
the Consumer Thread was started (section 3). -/
structure logger_state where
  sinks            : List sink_cfg
  consumer_started : Bool
deriving DecidableEq, Repr

/-- Modelled from the spec: `init(config)`: either every sink initializes
and the Consumer Thread starts, or `init` fails as a whole (sections 4.4
and 7). -/
def logger_init (openable : String → Bool) (cfgs : List sink_cfg) :
    Except String logger_state :=
  match init_sinks openable cfgs with
  | .error e => .error e
  | .ok ss => .ok ⟨ss, true⟩

/-- The process-wide Logger State after an `init` call: on error the logger
stays stopped, with no sinks installed and no Consumer Thread. -/
def state_after (r : Except String logger_state) : logger_state :=
  match r with
  | .ok st => st
  | .error _ => ⟨[], false⟩

/-- Concrete sink accepting all six levels with an empty category filter
(the configuration of the test's `logger.file` sink). -/
def w_sink_all : sink_config :=
  ⟨[.LEVEL_DEBUG, .LEVEL_INFO, .LEVEL_WARNING, .LEVEL_ERROR, .LEVEL_FATAL,
    .LEVEL_ALERT], []⟩

/-- Concrete two-record queue of producer thread 7, seq 1 and 2. -/
def w_queue2 : List log_record :=
  [⟨.LEVEL_ERROR, [], 7, 1, ⟨0, 0⟩, ('a' :: [])⟩,
   ⟨.LEVEL_WARNING, [], 7, 2, ⟨0, 1⟩, ('b' :: [])⟩]

theorem usec_down_spec (s u : Int) (h : 0 ≤ u) :
    0 ≤ (usec_down s u).2 ∧ (usec_down s u).2 < 1000000 := by
  unfold usec_down
  split
  · exact usec_down_spec (s + 1) (u - 1000000) (by omega)
  · exact ⟨h, by omega⟩
termination_by u.toNat
decreasing_by omega

theorem usec_up_spec (s u : Int) (h : u ≤ 0) :
    -1000000 < (usec_up s u).2 ∧ (usec_up s u).2 ≤ 0 := by
  unfold usec_up
  split
  · exact usec_up_spec (s - 1) (u + 1000000) (by omega)
  · exact ⟨by omega, h⟩
termination_by (-u).toNat
decreasing_by omega

theorem fixup_normalized (s u : Int) (h1 : -1000000 < u) (h2 : u < 1000000) :
    normalized (fixup s u) := by
  unfold fixup
  split_ifs with hf1 hf2 <;> (simp only [normalized]; omega)

theorem normalize_normalized (t : time_val) : normalized (normalize t) := by
  unfold normalize
  by_cases h1 : 1000000 ≤ t.tv_usec
  · rw [if_pos h1]
    have h := usec_down_spec t.tv_sec t.tv_usec (by omega)
    exact fixup_normalized _ _ (by omega) (by omega)
  · rw [if_neg h1]
    by_cases h2 : t.tv_usec ≤ -1000000
    · rw [if_pos h2]
      have h := usec_up_spec t.tv_sec t.tv_usec (by omega)
      exact fixup_normalized _ _ (by omega) (by omega)
    · rw [if_neg h2]
      exact fixup_normalized _ _ (by omega) (by omega)

/-- C8: for every `time_val` `t`, `operator bool()` returns exactly what
`empty()` returns, namely `true` iff `sec() == 0 && usec() == 0` — so a zero
time converts to `true` and every non-zero time converts to `false`, the
opposite of the usual is-set convention. -/
theorem operator_bool_coincides_with_empty (t : time_val) :
    t.operator_bool = t.empty ∧
    (t.operator_bool = true ↔ t.sec = 0 ∧ t.usec = 0) := by
  refine ⟨rfl, ?_⟩
  simp [time_val.operator_bool]

theorem find_index_not_mem (l : List String) (s : String) (i : Int)
    (h : s ∉ l) : find_index l s i = -1 := by
  induction l generalizing i with
  | nil => rfl
  | cons v vs ih =>
    have hv : v ≠ s := fun hvs => h (hvs ▸ List.mem_cons_self v vs)
    have hs : s ∉ vs := fun hm => h (List.mem_cons_of_mem v hm)
    simp only [find_index, if_neg hv]
    exact ih _ hs

/-- C7: `parse_stamp_type` recognizes exactly the seven tokens
none / time / time-msec / time-usec / date-time / date-time-msec /
date-time-usec, mapping each to its style, and fails with a `badarg` error on
every other input string. -/
theorem parse_stamp_type_exact :
    (parse_stamp_type "none" = .ok .NO_TIMESTAMP ∧
     parse_stamp_type "time" = .ok .TIME ∧
     parse_stamp_type "time-msec" = .ok .TIME_WITH_MSEC ∧
     parse_stamp_type "time-usec" = .ok .TIME_WITH_USEC ∧
     parse_stamp_type "date-time" = .ok .DATE_TIME ∧
     parse_stamp_type "date-time-msec" = .ok .DATE_TIME_WITH_MSEC ∧
     parse_stamp_type "date-time-usec" = .ok .DATE_TIME_WITH_USEC) ∧
    ∀ s : String, s ∉ s_values →
      ∃ e, parse_stamp_type s = .error e := by
  constructor
  · exact ⟨rfl, rfl, rfl, rfl, rfl, rfl, rfl⟩
  · intro s hs
    refine ⟨"parse_stamp_tpe: invalid timestamp type", ?_⟩
    unfold parse_stamp_type
    rw [find_index_not_mem s_values s 0 hs]
    rfl

/-- Witness for C7: the theorem applied at the concrete rejected token
`"datetime"`. -/
theorem parse_stamp_type_exact_witness :
    ∃ e, parse_stamp_type "datetime" = .error e :=
  parse_stamp_type_exact.2 "datetime" (by decide)

theorem itoa_right_length (width : Nat) (v : Int) :
    (itoa_right width v).length = width := by
  induction width generalizing v with
  | zero => rfl
  | succ w ih => simp [itoa_right, ih]

/-- C9: for every stamp type and every input time, `timestamp::format`
returns exactly `timestamp::format_size` of that type (0, 8, 12, 15, 17, 21
or 24), and that is precisely the number of characters written to the
buffer. -/
theorem format_returns_format_size (a_tp : stamp_type) (tv : time_val)
    (a_utc : Bool) (off last : Int) :
    (format a_tp tv a_utc off last).1.length = format_size a_tp ∧
    (format a_tp tv a_utc off last).2 = (format_size a_tp : Int) := by
  cases a_tp <;>
    simp [format, format_size, write_time_hms, internal_write_date,
      itoa_right_length]

/-- C10: every `time_val` produced by the two-argument constructor
`time_val(sec, usec)` or by `operator+`/`operator-` on two `time_val`s is
normalized: `|usec| < 10^6` and `sec`/`usec` never have strictly opposite
signs. -/
theorem constructor_and_arith_normalized (s us : Int) (a b : time_val) :
    normalized (time_val.mk2 s us) ∧
    normalized (a.sub b) ∧ normalized (a.add b) :=
  ⟨normalize_normalized _, normalize_normalized _, normalize_normalized _⟩

theorem display_msg_alert_suffix (pre : List Char) :
    display_msg .LEVEL_ALERT (pre ++ alert_sfx) = pre ++ fatal_sfx := by
  unfold display_msg
  rw [if_pos ⟨rfl, List.suffix_append pre alert_sfx⟩]
  congr 1
  have h : (pre ++ alert_sfx).length - alert_sfx.length = pre.length := by
    simp [List.length_append]
  rw [h, List.take_left]

/-- C1: under timestamp style "none" (with show-ident and show-location
false) every delivered record's line is exactly
`<LevelChar>|<Category>|<Message>` with an empty timestamp field, the level
character one of D, I, W, E, F, and the category field empty when the record
carries none; in particular an error-level, category-less record with
message "This is an error #123" yields `|E||This is an error #123`. -/
theorem line_format_under_none (a_utc : Bool) (off last : Int)
    (r : log_record) :
    render_line .NO_TIMESTAMP a_utc off last r
      = '|' :: level_char r.level :: '|' ::
          (r.category ++ '|' :: display_msg r.level r.msg) ∧
    level_char r.level ∈ ['D', 'I', 'W', 'E', 'F'] ∧
    render_line .NO_TIMESTAMP true 0 0
        ⟨.LEVEL_ERROR, [], 0, 0, ⟨0, 0⟩, "This is an error #123".data⟩
      = "|E||This is an error #123".data := by
  refine ⟨?_, ?_, ?_⟩
  · simp [render_line, format]
  · cases r.level <;> simp [level_char]
  · decide

/-- C5: every alert-level record renders with level marker F, and a message
ending in "alert error" is emitted ending in "fatal error", per the fixed
display mapping debug to D, info to I, warning to W, error to E, fatal to F,
alert to F. -/
theorem alert_renders_with_fatal (pre cat : List Char) (a_utc : Bool)
    (off last : Int) (t : time_val) :
    (level_char .LEVEL_DEBUG = 'D' ∧ level_char .LEVEL_INFO = 'I' ∧
     level_char .LEVEL_WARNING = 'W' ∧ level_char .LEVEL_ERROR = 'E' ∧
     level_char .LEVEL_FATAL = 'F' ∧ level_char .LEVEL_ALERT = 'F') ∧
    display_msg .LEVEL_ALERT (pre ++ alert_sfx) = pre ++ fatal_sfx ∧
    render_line .NO_TIMESTAMP a_utc off last
        ⟨.LEVEL_ALERT, cat, 0, 0, t, pre ++ alert_sfx⟩
      = '|' :: 'F' :: '|' :: (cat ++ '|' :: (pre ++ fatal_sfx)) := by
  refine ⟨⟨rfl, rfl, rfl, rfl, rfl, rfl⟩, display_msg_alert_suffix pre, ?_⟩
  simp [render_line, format, level_char, display_msg_alert_suffix pre]

/-- C2: through a sink whose filter accepts all levels (and has an empty
category filter), the output restricted to any fixed producer thread carries
that thread's sequence numbers exactly 1..K in order and non-decreasing
timestamps, whenever the enqueue order did: per-producer-thread FIFO is
preserved end to end. -/
theorem per_thread_fifo_preserved (s : sink_config) (q : List log_record)
    (t K : Nat)
    (hlv : ∀ lv : log_level, lv ∈ s.levels) (hcat : s.categories = [])
    (hseq : (by_thread t q).map log_record.seq = List.range' 1 K)
    (hts : ts_mono (by_thread t q) = true) :
    (by_thread t (sink_output s q)).map log_record.seq = List.range' 1 K ∧
    ts_mono (by_thread t (sink_output s q)) = true := by
  have hall : ∀ r, accepts s r = true := by
    intro r
    simp [accepts, hcat, hlv r.level]
  have hq : sink_output s q = q :=
    List.filter_eq_self.mpr (fun r _ => hall r)
  rw [hq]
  exact ⟨hseq, hts⟩

/-- Witness for C2: the theorem applied to the concrete two-record queue of
thread 7 through the accept-all sink. -/
theorem per_thread_fifo_preserved_witness :
    (by_thread 7 (sink_output w_sink_all w_queue2)).map log_record.seq
      = List.range' 1 2 ∧
    ts_mono (by_thread 7 (sink_output w_sink_all w_queue2)) = true :=
  per_thread_fifo_preserved w_sink_all w_queue2 7 2
    (by intro lv; cases lv <;> decide) rfl (by decide) (by decide)

/-- C3: after `finalize()` the sink file holds exactly the queued records
that passed the filter, in arrival (hence per-thread FIFO) order, followed
by one terminal informational line and nothing after it; no record that was
enqueued before shutdown and passed the filter is discarded. -/
theorem finalize_drains_and_finishes (tp : stamp_type) (a_utc : Bool)
    (off last : Int) (s : sink_config) (q : List log_record)
    (shut : time_val) :
    (∀ r ∈ q, accepts s r = true →
        render_line tp a_utc off last r
          ∈ finalize_output tp a_utc off last s q true shut) ∧
    finalize_output tp a_utc off last s q true shut
      = (sink_output s q).map (render_line tp a_utc off last)
          ++ [render_line tp a_utc off last (finish_record shut)] ∧
    (finalize_output tp a_utc off last s q true shut).getLast?
      = some (render_line tp a_utc off last (finish_record shut)) ∧
    render_line .NO_TIMESTAMP a_utc off last (finish_record shut)
      = "|I||Logger thread finished".data := by
  refine ⟨?_, ?_, ?_, ?_⟩
  · intro r hr hacc
    exact List.mem_append_left _
      (List.mem_map_of_mem _ (List.mem_filter.mpr ⟨hr, hacc⟩))
  · simp [finalize_output]
  · simp only [finalize_output, if_pos trivial]
    exact List.getLast?_concat _
  · simp only [render_line, format, finish_record, display_msg]
    decide

/-- Witness for C3: the theorem applied to the concrete two-record queue,
checking that the first record's rendered line is in the final output. -/
theorem finalize_drains_and_finishes_witness :
    render_line .NO_TIMESTAMP true 0 0
        ⟨.LEVEL_ERROR, [], 7, 1, ⟨0, 0⟩, ('a' :: [])⟩
      ∈ finalize_output .NO_TIMESTAMP true 0 0 w_sink_all w_queue2 true
          ⟨0, 2⟩ :=
  (finalize_drains_and_finishes .NO_TIMESTAMP true 0 0 w_sink_all w_queue2
      ⟨0, 2⟩).1
    ⟨.LEVEL_ERROR, [], 7, 1, ⟨0, 0⟩, ('a' :: [])⟩
    (by decide) (by decide)

/-- C4: a record is written to a sink iff the record is in the queue, its
level is in the sink's enabled-level set, and the sink's category set is
empty or contains the record's category — so category-less records route to
sinks with an empty category filter. -/
theorem record_reaches_sink_iff (s : sink_config) (q : List log_record)
    (r : log_record) :
    r ∈ sink_output s q ↔
      r ∈ q ∧ r.level ∈ s.levels ∧
        (s.categories = [] ∨ r.category ∈ s.categories) := by
  simp [sink_output, List.mem_filter, accepts, List.isEmpty_iff, and_assoc]

theorem init_sink_error_of_bad (openable : String → Bool) (c : sink_cfg)
    (hbad : opts_recognized c = false ∨ levels_ok c = false ∨
            target_ok openable c = false) :
    ∃ e, init_sink openable c = .error e := by
  unfold init_sink
  by_cases h1 : opts_recognized c = true
  · by_cases h2 : levels_ok c = true
    · by_cases h3 : target_ok openable c = true
      · rcases hbad with hb | hb | hb <;> simp_all
      · exact ⟨"failed to open sink target", by simp [h1, h2, h3]⟩
    · exact ⟨"unparsable level token", by simp [h1, h2]⟩
  · exact ⟨"unrecognized option", by simp [h1]⟩

theorem init_sinks_error_of_bad (openable : String → Bool)
    (cfgs : List sink_cfg) (c : sink_cfg) (hc : c ∈ cfgs)
    (hbad : opts_recognized c = false ∨ levels_ok c = false ∨
            target_ok openable c = false) :
    ∃ e, init_sinks openable cfgs = .error e := by
  induction cfgs with
  | nil => cases hc
  | cons c0 cs ih =>
    rcases List.mem_cons.mp hc with hceq | hmem
    · subst hceq
      obtain ⟨e, he⟩ := init_sink_error_of_bad openable c hbad
      exact ⟨e, by simp [init_sinks, he]⟩
    · cases hs : init_sink openable c0 with
      | error e => exact ⟨e, by simp [init_sinks, hs]⟩
      | ok s =>
        obtain ⟨e, he⟩ := ih hmem
        exact ⟨e, by simp [init_sinks, hs, he]⟩

theorem init_sinks_ok_length (openable : String → Bool)
    (cfgs : List sink_cfg) (ss : List sink_cfg)
    (h : init_sinks openable cfgs = .ok ss) :
    ss.length = cfgs.length := by
  induction cfgs generalizing ss with
  | nil =>
    simp [init_sinks] at h
    simp [← h]
  | cons c0 cs ih =>
    unfold init_sinks at h
    cases h0 : init_sink openable c0 with
    | error e => rw [h0] at h; cases h
    | ok s =>
      rw [h0] at h
      cases h1 : init_sinks openable cs with
      | error e => rw [h1] at h; cases h
      | ok ss0 =>
        rw [h1] at h
        cases h
        simp [ih ss0 h1]

/-- C6: a configuration whose sink carries an unrecognized option, an
unparsable level token, or a target that fails to open makes `init` fail
synchronously as a whole: the process state keeps no sinks and no Consumer
Thread; and when `init` succeeds, every sink initialized and the Consumer
Thread started — no partial startup exists. -/
theorem init_all_or_nothing (openable : String → Bool)
    (cfgs : List sink_cfg) :
    (∀ c ∈ cfgs,
      (opts_recognized c = false ∨ levels_ok c = false ∨
       target_ok openable c = false) →
      (∃ e, logger_init openable cfgs = .error e) ∧
      (state_after (logger_init openable cfgs)).consumer_started = false ∧
      (state_after (logger_init openable cfgs)).sinks = []) ∧
    (∀ st, logger_init openable cfgs = .ok st →
      st.consumer_started = true ∧ st.sinks.length = cfgs.length) := by
  constructor
  · intro c hc hbad
    obtain ⟨e, he⟩ := init_sinks_error_of_bad openable cfgs c hc hbad
    refine ⟨⟨e, ?_⟩, ?_, ?_⟩ <;> simp [logger_init, state_after, he]
  · intro st hst
    unfold logger_init at hst
    cases h1 : init_sinks openable cfgs with
    | error e => rw [h1] at hst; cases hst
    | ok ss =>
      rw [h1] at hst
      cases hst
      exact ⟨rfl, init_sinks_ok_length openable cfgs ss h1⟩

/-- Witness for C6: `init` on a single sink carrying the unrecognized
option `ho-header` (the misspelling in the test's configuration) fails and
leaves the logger stopped. -/
theorem init_all_or_nothing_witness :
    (∃ e, logger_init (fun _ => true) [⟨[("ho-header", "true")]⟩]
            = .error e) ∧
    (state_after (logger_init (fun _ => true) [⟨[("ho-header", "true")]⟩])
      ).consumer_started = false :=
  ⟨((init_all_or_nothing (fun _ => true) [⟨[("ho-header", "true")]⟩]).1
      ⟨[("ho-header", "true")]⟩ (by decide) (by decide)).1,
   ((init_all_or_nothing (fun _ => true) [⟨[("ho-header", "true")]⟩]).1
      ⟨[("ho-header", "true")]⟩ (by decide) (by decide)).2.1⟩

end utxx
